import Mathlib

/-
Verification development for the Google Calendar sync client
(inbox/events/google.py): the cursor-paginated fetch loop, the 410
staleness fallback, the delete/upsert classification, and the
remote-JSON <-> domain Event translation.

Machine integers do not occur; timestamps are modelled as `Int` seconds
(one day = 86400 seconds, standing in for `datetime.timedelta(days=1)`).
Python dictionaries coming from JSON are modelled as structures whose
optional keys are `Option` fields (`none` = key absent); required-key
accesses (`event['id']`, `event['start']`, ...) are modelled as required
fields.  Fallible translation code returns `Option`: `none` stands for a
raised `KeyError`/parse exception.
-/

set_option autoImplicit false

namespace InboxGoogle

/-! ## HTTP model: responses and `requests` semantics -/

/-- One HTTP response to a paginated GET request, as consumed by
`_get_resource_list`: a status code and, for 200 responses, the parsed
JSON body's `items` array and optional `nextPageToken`.  `α` is the raw
JSON item type (calendar-list entries or event resources). -/
structure PageResponse (α : Type) where
  status : Nat
  items : List α
  nextPageToken : Option String
  deriving Repr, DecidableEq

/-- The `requests` library's `Response.raise_for_status` raises an
`HTTPError` exactly for client errors (4xx) and server errors (5xx),
i.e. for 400 ≤ status < 600; informational/redirect leftovers such as
304 do not raise. -/
def is_http_error (status : Nat) : Bool :=
  400 ≤ status && status < 600

/-- The body of `_get_resource_list`'s `while True:` loop, run over the
stream of responses the remote emits for successive requests.  State
threaded exactly as in the source: `acc` is `items`, `npt` is
`next_page_token` (which, once set, is injected as the `pageToken`
request parameter), `refreshes` counts calls to `_get_access_token`
made from the 401 branch, and `reqs` records the `pageToken` parameter
each issued request carried (`none` = no `pageToken` sent).  The loop
also always sends `showDeleted=true`, which is constant and not
tracked.  Result `none` means the supplied response stream was
exhausted before the loop returned or raised. -/
def fetchPages {α : Type} :
    List (PageResponse α) → List α → Option String → Nat →
    List (Option String) →
    Option (Except Nat (List α) × Nat × List (Option String))
  | [], _, _, _, _ => none
  | r :: rest, acc, npt, refreshes, reqs =>
    let reqs := reqs ++ [npt]
    if r.status = 200 then
      let acc := acc ++ r.items
      match r.nextPageToken with
      | none => some (Except.ok acc, refreshes, reqs)
      | some t => fetchPages rest acc (some t) refreshes reqs
    else if r.status = 401 then
      -- get a new access token and retry, without touching acc or npt
      fetchPages rest acc npt (refreshes + 1) reqs
    else if is_http_error r.status then
      some (Except.error r.status, refreshes, reqs)
    else
      -- raise_for_status is a no-op below 400, so the loop re-issues
      -- the same request
      fetchPages rest acc npt refreshes reqs

/-- `_get_resource_list(url, **params)`: start the fetch loop with an
empty accumulator, no page token and a freshly acquired access token.
Returns `(result, token-refresh count, pageToken trace)`. -/
def _get_resource_list {α : Type} (responses : List (PageResponse α)) :
    Option (Except Nat (List α) × Nat × List (Option String)) :=
  fetchPages responses [] none 0 []

/-! ## Timestamps

`inbox.events.util.parse_datetime` and the `datetime` standard library
are outside the shown sources, so they are modelled from the spec:
timestamps are `Int` seconds on a proleptic-Gregorian time line whose
epoch is 0000-03-01 (the standard civil-from-days era base), and one
day is 86400 seconds, standing in for `timedelta(days=1)`. -/

/-- One day, as subtracted by `datetime.timedelta(days=1)`. -/
def oneDay : Int := 86400

/-- Day number of the civil date `y-m-d` (days since 0000-03-01),
standard era-based algorithm; valid for years ≥ 1 and real dates. -/
def daysFromCivil (y m d : Nat) : Nat :=
  let y := if m ≤ 2 then y - 1 else y
  let era := y / 400
  let yoe := y % 400
  let mp := (m + 9) % 12
  let doy := (153 * mp + 2) / 5 + d - 1
  let doe := yoe * 365 + yoe / 4 - yoe / 100 + doy
  era * 146097 + doe

/-- Inverse of `daysFromCivil`: the civil date of a day number. -/
def civilFromDays (z : Nat) : Nat × Nat × Nat :=
  let era := z / 146097
  let doe := z % 146097
  let yoe := (doe - doe / 1460 + doe / 36524 - doe / 146096) / 365
  let y := yoe + era * 400
  let doy := doe - (365 * yoe + yoe / 4 - yoe / 100)
  let mp := (5 * doy + 2) / 153
  let d := doy - (153 * mp + 2) / 5 + 1
  let m := if mp < 10 then mp + 3 else mp - 9
  (if m ≤ 2 then y + 1 else y, m, d)

/-- Split a character list at every occurrence of the separator. -/
def splitOnChar (sep : Char) : List Char → List (List Char)
  | [] => [[]]
  | c :: cs =>
    match splitOnChar sep cs with
    | [] => [[]]
    | g :: gs => if c = sep then [] :: g :: gs else (c :: g) :: gs

/-- Read a nonempty all-digit character list as a decimal numeral. -/
def digitsToNat? : List Char → Nat → Option Nat
  | [], acc => some acc
  | c :: cs, acc =>
    if c.isDigit then digitsToNat? cs (acc * 10 + (c.toNat - 48)) else none

/-- Numeric field of a date/time string (`none` on empty or non-digit
input). -/
def fieldToNat? (l : List Char) : Option Nat :=
  match l with
  | [] => none
  | _ => digitsToNat? l 0

/-- Modelled from the spec: `parse_datetime` on a bare `YYYY-MM-DD`
string splits it into numeric fields; helper shared by both value
shapes. -/
def parse_date_parts (l : List Char) : Option (Nat × Nat × Nat) :=
  match splitOnChar '-' l with
  | [ys, ms, ds] =>
    match fieldToNat? ys, fieldToNat? ms, fieldToNat? ds with
    | some y, some m, some d => some (y, m, d)
    | _, _, _ => none
  | _ => none

/-- Modelled from the spec: `inbox.events.util.parse_datetime` (not in
the shown sources).  Date-only values (`YYYY-MM-DD`) parse as calendar
dates, i.e. midnight of that day; `dateTime` values
(`YYYY-MM-DDTHH:MM:SS[...]`, any trailing zone designator ignored —
instants are already UTC-normalized) parse as exact instants.
Unparseable input is a raised error (`none`). -/
def parse_datetime (s : String) : Option Int :=
  match splitOnChar 'T' s.data with
  | [ds] =>
    (parse_date_parts ds).map fun ymd =>
      ((daysFromCivil ymd.1 ymd.2.1 ymd.2.2 : Nat) : Int) * oneDay
  | [ds, ts] =>
    match parse_date_parts ds with
    | none => none
    | some ymd =>
      let core := ts.takeWhile fun c => c.isDigit || c = ':'
      match splitOnChar ':' core with
      | [hs, ms, ss] =>
        match fieldToNat? hs, fieldToNat? ms, fieldToNat? ss with
        | some h, some mi, some sec =>
          some (((daysFromCivil ymd.1 ymd.2.1 ymd.2.2 : Nat) : Int) * oneDay
                + (h * 3600 + mi * 60 + sec : Nat))
        | _, _, _ => none
      | _ => none
  | _ => none

/-- Left-pad a numeral to two digits. -/
def pad2 (n : Nat) : String :=
  if n < 10 then "0" ++ toString n else toString n

/-- Left-pad a numeral to four digits. -/
def pad4 (n : Nat) : String :=
  if n < 10 then "000" ++ toString n
  else if n < 100 then "00" ++ toString n
  else if n < 1000 then "0" ++ toString n
  else toString n

/-- Modelled from the spec: `datetime.strftime('%Y-%m-%d')` for
timestamps at or after the epoch. -/
def strftimeYMD (t : Int) : String :=
  let ymd := civilFromDays (t.toNat / 86400)
  pad4 ymd.1 ++ "-" ++ pad2 ymd.2.1 ++ "-" ++ pad2 ymd.2.2

/-- Modelled from the spec: `datetime.isoformat('T')` for timestamps at
or after the epoch. -/
def isoformatT (t : Int) : String :=
  let secs := t.toNat % 86400
  strftimeYMD t ++ "T" ++ pad2 (secs / 3600) ++ ":"
    ++ pad2 (secs % 3600 / 60) ++ ":" ++ pad2 (secs % 60)

/-! ## Remote JSON shapes (Google Calendar v3 resources) -/

/-- An event's `start`/`end` sub-object: either a bare `date` or a
`dateTime`. -/
structure GTime where
  date : Option String
  dateTime : Option String
  deriving Repr, DecidableEq

/-- An event's `creator` sub-object. -/
structure GPerson where
  displayName : Option String
  email : Option String
  self : Bool
  deriving Repr, DecidableEq

/-- One entry of an event's `attendees` array.  `additionalGuests` is
only ever written by the push direction. -/
structure GAttendee where
  email : Option String
  displayName : Option String
  responseStatus : Option String
  comment : Option String
  additionalGuests : Option Nat
  deriving Repr, DecidableEq

/-- A Google event resource, with the fields `parse_event_response`
reads.  `id`, `start` and `end` are required-key accesses in the
source. -/
structure GEvent where
  id : String
  status : Option String
  summary : Option String
  start : GTime
  «end» : GTime
  description : Option String
  location : Option String
  transparency : Option String
  creator : Option GPerson
  guestsCanModify : Bool
  attendees : List GAttendee
  deriving Repr, DecidableEq

/-- A Google calendarList resource, with the fields
`parse_calendar_response` and `get_calendars` read.  `id`, `summary`
and `accessRole` are required-key accesses in the source. -/
structure GCalendar where
  id : String
  summary : String
  accessRole : String
  description : Option String
  deleted : Bool
  deriving Repr, DecidableEq

/-! ## Domain records -/

/-- The domain `Calendar` record (`inbox.models`, external to the shown
sources; fields as constructed by `parse_calendar_response`). -/
structure Calendar where
  uid : String
  name : String
  read_only : Bool
  description : Option String
  deriving Repr, DecidableEq

/-- One participant dictionary as built by `parse_event_response` and
consumed by `_create_attendee`.  `Option` fields model key
presence/absence; `guests` is only meaningful on the push side. -/
structure Participant where
  email : Option String
  name : Option String
  status : Option String
  notes : Option String
  guests : Option Nat
  deriving Repr, DecidableEq

/-- The domain `Event` record (`inbox.models`, external to the shown
sources; fields as constructed by `parse_event_response`).  `raw_data`
(`str(event)` in the source) is modelled as the raw resource itself. -/
structure Event where
  uid : String
  raw_data : GEvent
  title : String
  description : Option String
  location : Option String
  busy : Bool
  start : Int
  «end» : Int
  all_day : Bool
  owner : String
  read_only : Bool
  participants : List Participant
  source : String
  deriving Repr, DecidableEq

/-! ## Attendee status mapping -/

/-- The fixed remote→domain response-status table. -/
def STATUS_MAP : List (String × String) :=
  [("accepted", "yes"), ("needsAction", "noreply"),
   ("declined", "no"), ("tentative", "maybe")]

/-- Dictionary lookup `STATUS_MAP[r]`; `none` models the `KeyError`. -/
def statusFromRemote (r : String) : Option String :=
  (STATUS_MAP.find? fun kv => kv.1 = r).map fun kv => kv.2

/-- Lookup in `inv_status_map` (`{value: key for key, value in
STATUS_MAP.iteritems()}`); `none` models the `KeyError`. -/
def statusToRemote (d : String) : Option String :=
  (STATUS_MAP.find? fun kv => kv.2 = d).map fun kv => kv.1

/-! ## parse_event_response / parse_calendar_response -/

/-- The timing block of `parse_event_response`: when both sub-objects
carry a `date` key the event is all-day, the dates parse as calendar
dates and the exclusive end date has one day subtracted; otherwise the
`dateTime` keys are required (`none` models the `KeyError` when one is
missing) and parse as instants. -/
def event_times (e : GEvent) : Option (Int × Int) :=
  if e.start.date.isSome && e.«end».date.isSome then
    match e.start.date, e.«end».date with
    | some sd, some ed =>
      match parse_datetime sd, parse_datetime ed with
      | some s, some en => some (s, en - oneDay)
      | _, _ => none
    | _, _ => none
  else
    match e.start.dateTime, e.«end».dateTime with
    | some sd, some ed =>
      match parse_datetime sd, parse_datetime ed with
      | some s, some en => some (s, en)
      | _, _ => none
    | _, _ => none

/-- One iteration of the attendees loop:
`STATUS_MAP[attendee.get('responseStatus')]` raises (`none`) when the
status is absent or not in the table, else the participant dictionary
is built. -/
def translate_attendee (a : GAttendee) : Option Participant :=
  match a.responseStatus.bind statusFromRemote with
  | none => none
  | some st =>
    some { email := a.email, name := a.displayName, status := some st,
           notes := a.comment, guests := none }

/-- The attendees loop of `parse_event_response`: participants in
order, aborting at the first attendee whose status cannot be mapped. -/
def translate_attendees : List GAttendee → Option (List Participant)
  | [] => some []
  | a :: rest =>
    match translate_attendee a, translate_attendees rest with
    | some p, some ps => some (p :: ps)
    | _, _ => none

/-- `parse_event_response(event)`: construct a domain `Event` from a
Google event resource; `none` models a raised parse error
(`KeyError` on timing keys or on an unmapped attendee status). -/
def parse_event_response (e : GEvent) : Option Event :=
  let all_day := e.start.date.isSome && e.«end».date.isSome
  match event_times e with
  | none => none
  | some se =>
    match translate_attendees e.attendees with
    | none => none
    | some participants =>
      some { uid := e.id
             raw_data := e
             title := e.summary.getD ""
             description := e.description
             location := e.location
             busy := if e.transparency = some "transparent" then false else true
             start := se.1
             «end» := se.2
             all_day := all_day
             owner := match e.creator with
               | some c => (c.displayName.getD "") ++ " <" ++ (c.email.getD "") ++ ">"
               | none => ""
             read_only :=
               let is_owner := match e.creator with
                 | some c => c.self
                 | none => false
               !(is_owner || e.guestsCanModify)
             participants := participants
             source := "local" }

/-- `parse_calendar_response(calendar)`: construct a domain `Calendar`
from a Google calendarList resource. -/
def parse_calendar_response (c : GCalendar) : Calendar :=
  { uid := c.id
    name := c.summary
    read_only := c.accessRole = "reader"
    description := c.description }

/-! ## get_calendars / get_events classification -/

/-- The classification loop of `GoogleEventsProvider.get_calendars`,
over the already-fetched raw calendarList items: an item with a truthy
`deleted` flag contributes its `id` to the deletes, every other item is
translated and appended to the updates. -/
def get_calendars : List GCalendar → List String × List Calendar
  | [] => ([], [])
  | item :: rest =>
    let du := get_calendars rest
    if item.deleted then (item.id :: du.1, du.2)
    else (du.1, parse_calendar_response item :: du.2)

/-- The classification loop of `GoogleEventsProvider.get_events`, over
the already-fetched raw event items: an item whose `status` equals
`cancelled` contributes its `id` to the deletes, every other item is
translated and appended to the updates; a translation error aborts the
whole pass (`none`). -/
def get_events : List GEvent → Option (List String × List Event)
  | [] => some ([], [])
  | item :: rest =>
    if item.status = some "cancelled" then
      (get_events rest).map fun du => (item.id :: du.1, du.2)
    else
      match parse_event_response item, get_events rest with
      | some ev, some du => some (du.1, ev :: du.2)
      | _, _ => none

/-- Translation of a batch of event items in order, aborting at the
first failure; used to state what `get_events` does with the
non-cancelled items. -/
def translate_events : List GEvent → Option (List Event)
  | [] => some []
  | e :: rest =>
    match parse_event_response e, translate_events rest with
    | some ev, some evs => some (ev :: evs)
    | _, _ => none

/-! ## Push direction: _create_attendee / _dump_event -/

/-- `_create_attendee(participant)`: build the attendee dictionary,
copying each present key; the status goes back through
`inv_status_map`, whose `KeyError` on an unmapped domain status is
modelled as `none`. -/
def _create_attendee (p : Participant) : Option GAttendee :=
  match p.status with
  | none =>
    some { email := p.email, displayName := p.name,
           responseStatus := none, comment := none,
           additionalGuests := p.guests }
  | some st =>
    match statusToRemote st with
    | none => none
    | some rs =>
      some { email := p.email, displayName := p.name,
             responseStatus := some rs, comment := none,
             additionalGuests := p.guests }

/-- Python truthiness of the attendee dictionary: nonempty, i.e. at
least one key was set. -/
def attendee_truthy (a : GAttendee) : Bool :=
  a.email.isSome || a.displayName.isSome || a.responseStatus.isSome
    || a.comment.isSome || a.additionalGuests.isSome

/-- The attendees comprehension of `_dump_event`, aborting at the first
participant whose status cannot be mapped back. -/
def dump_attendees : List Participant → Option (List GAttendee)
  | [] => some []
  | p :: rest =>
    match _create_attendee p, dump_attendees rest with
    | some a, some atts => some (a :: atts)
    | _, _ => none

/-- The `attendees` key of the dump: absent (`none`) when the event has
no participants, otherwise the translated attendees with falsy (empty)
entries dropped. -/
def dump_attendees_field (ps : List Participant) :
    Option (Option (List GAttendee)) :=
  if ps.isEmpty then some none
  else
    match dump_attendees ps with
    | none => none
    | some atts => some (some (atts.filter attendee_truthy))

/-- A start/end value in the dumped JSON: either a `date` key or a
`dateTime` key with a `timeZone` label. -/
inductive TimeDump where
  | date (d : String)
  | dateTime (dt : String) (timeZone : String)
  deriving Repr, DecidableEq

/-- The JSON dictionary produced by `_dump_event`.  The `summary`,
`description`, `location` and `transparency` keys are always set (an
`Option` value records a JSON null, not an absent key); `end` and
`attendees` are optional keys. -/
structure EventDump where
  summary : String
  description : Option String
  location : Option String
  transparency : String
  start : TimeDump
  «end» : Option TimeDump
  attendees : Option (List GAttendee)
  deriving Repr, DecidableEq

/-- `_dump_event(event)`: convert a domain `Event` to the Google API
JSON format; `none` models the `KeyError` raised on an unmapped
participant status. -/
def _dump_event (ev : Event) : Option EventDump :=
  match dump_attendees_field ev.participants with
  | none => none
  | some atts =>
    some { summary := ev.title
           description := ev.description
           location := ev.location
           transparency := if ev.busy then "opaque" else "transparent"
           start :=
             if ev.all_day then TimeDump.date (strftimeYMD ev.start)
             else TimeDump.dateTime (isoformatT ev.start) "UTC"
           «end» :=
             if ev.all_day then none
             else some (TimeDump.dateTime (isoformatT ev.«end») "UTC")
           attendees := atts }

/-! ## _get_raw_events and the 410 fallback -/

/-- The query parameters `_get_raw_events` passes to
`_get_resource_list` (besides the constant `showDeleted=true`).
`updatedMin = none` models both an absent key and a `None` value: the
`requests` library drops `None`-valued parameters, so neither puts
`updatedMin` on the wire. -/
structure EventParams where
  updatedMin : Option String
  singleEvents : Bool
  deriving Repr, DecidableEq

/-- `_get_raw_events(calendar_uid, sync_from_time)`.  The paginated
fetch for this calendar's URL is abstracted as `resource_list`, a map
from query parameters to the outcome of `_get_resource_list` (items, or
a raised `HTTPError` status).  A supplied `sync_from_time` is formatted
as an ISO instant with an explicit `Z` suffix and sent as `updatedMin`;
`singleEvents` is always true.  A 410 failure triggers exactly one
retry without `updatedMin`, whose outcome is returned as-is; any other
failure propagates.  The second component records the parameters of
each request actually issued, in order. -/
def _get_raw_events (resource_list : EventParams → Except Nat (List GEvent))
    (sync_from_time : Option Int) :
    Except Nat (List GEvent) × List EventParams :=
  let sft := sync_from_time.map fun t => isoformatT t ++ "Z"
  let p1 : EventParams := { updatedMin := sft, singleEvents := true }
  let p2 : EventParams := { updatedMin := none, singleEvents := true }
  match resource_list p1 with
  | Except.ok items => (Except.ok items, [p1])
  | Except.error s =>
    if s = 410 then (resource_list p2, [p1, p2])
    else (Except.error s, [p1])

/-! ## Remote mutations -/

/-- A response to a single (non-paginated) mutation request: status
code and JSON body. -/
structure MResponse where
  status : Nat
  body : String
  deriving Repr, DecidableEq

/-- `Response.raise_for_status()` as called by `_make_event_request`:
an `HTTPError` for 4xx/5xx statuses, the response itself otherwise. -/
def raise_for_status (r : MResponse) : Except Nat MResponse :=
  if is_http_error r.status then Except.error r.status else Except.ok r

/-- `_make_event_request(method, calendar_uid, event_uid, ...)`: one
token acquisition, one request, `raise_for_status` on its response —
straight-line code, no loop.  Modelled over the stream of responses the
remote would emit (`none` if it is empty); the result carries the
number of requests issued and of token acquisitions, both 1 by
construction. -/
def _make_event_request (responses : List MResponse) :
    Option (Except Nat MResponse × Nat × Nat) :=
  match responses with
  | [] => none
  | r :: _ => some (raise_for_status r, 1, 1)

/-- `create_remote_event(event)`: POST the dumped body, return the
response's JSON body. -/
def create_remote_event (responses : List MResponse) :
    Option (Except Nat String × Nat × Nat) :=
  (_make_event_request responses).map fun x =>
    (x.1.map fun r => r.body, x.2)

/-- `update_remote_event(event)`: PUT the dumped body, no return
value. -/
def update_remote_event (responses : List MResponse) :
    Option (Except Nat Unit × Nat × Nat) :=
  (_make_event_request responses).map fun x =>
    (x.1.map fun _ => (), x.2)

/-- `delete_remote_event(calendar_uid, event_uid)`: DELETE, no return
value. -/
def delete_remote_event (responses : List MResponse) :
    Option (Except Nat Unit × Nat × Nat) :=
  (_make_event_request responses).map fun x =>
    (x.1.map fun _ => (), x.2)

/-! ## Theorems: pagination (C1) and 401 retry (C3) -/

/-- Running the loop over a run of 200 responses that all carry a
`nextPageToken` appends their items, in order, to the accumulator and
continues with the remaining responses; the refresh count is
untouched. -/
theorem fetchPages_run200 {α : Type} (rs tail : List (PageResponse α)) :
    ∀ (acc : List α) (npt : Option String) (refr : Nat)
      (reqs : List (Option String)),
    (∀ r ∈ rs, r.status = 200 ∧ r.nextPageToken.isSome) →
    ∃ npt2 reqs2,
      fetchPages (rs ++ tail) acc npt refr reqs
        = fetchPages tail (acc ++ (rs.map PageResponse.items).flatten) npt2 refr reqs2 := by
  induction rs with
  | nil =>
    intro acc npt refr reqs _
    exact ⟨npt, reqs, by simp⟩
  | cons r rs ih =>
    intro acc npt refr reqs hall
    have h200 : r.status = 200 := (hall r (List.mem_cons_self r rs)).1
    obtain ⟨t, ht⟩ := Option.isSome_iff_exists.mp
      (hall r (List.mem_cons_self r rs)).2
    have hstep : fetchPages ((r :: rs) ++ tail) acc npt refr reqs
        = fetchPages (rs ++ tail) (acc ++ r.items) (some t) refr (reqs ++ [npt]) := by
      simp [fetchPages, h200, ht]
    obtain ⟨npt2, reqs2, heq⟩ :=
      ih (acc ++ r.items) (some t) refr (reqs ++ [npt])
        (fun x hx => hall x (List.mem_cons_of_mem r hx))
    refine ⟨npt2, reqs2, ?_⟩
    rw [hstep, heq]
    simp [List.append_assoc]

/-- C1: for a cursor-paginated sequence of HTTP 200 responses linked
via `nextPageToken` (every page but the last carries a token, the last
does not), `_get_resource_list` returns exactly the concatenation of
the pages' `items` arrays in emission order — no deduplication — with
no token refresh, and terminates at the token-less page: responses
after it are never consumed. -/
theorem c1_pagination_concat {α : Type} (rs extra : List (PageResponse α))
    (last : PageResponse α)
    (hall : ∀ r ∈ rs, r.status = 200 ∧ r.nextPageToken.isSome)
    (h2 : last.status = 200) (h3 : last.nextPageToken = none) :
    ∃ reqs, _get_resource_list (rs ++ last :: extra)
      = some (Except.ok ((rs.map PageResponse.items).flatten ++ last.items),
              0, reqs) := by
  obtain ⟨npt2, reqs2, heq⟩ := fetchPages_run200 rs (last :: extra) [] none 0 [] hall
  refine ⟨reqs2 ++ [npt2], ?_⟩
  rw [_get_resource_list, heq]
  simp [fetchPages, h2, h3]

/-- C1 witness: two linked 200 pages (with an overlapping item, kept
twice) followed by an unconsumed 500 response. -/
theorem c1_pagination_concat_witness :
    ∃ reqs, _get_resource_list
        [({ status := 200, items := [1, 2], nextPageToken := some "t1" } : PageResponse Nat),
         { status := 200, items := [2, 3], nextPageToken := none },
         { status := 500, items := [9], nextPageToken := none }]
      = some (Except.ok [1, 2, 2, 3], 0, reqs) := by
  have h := c1_pagination_concat
    [({ status := 200, items := [1, 2], nextPageToken := some "t1" } : PageResponse Nat)]
    [{ status := 500, items := [9], nextPageToken := none }]
    { status := 200, items := [2, 3], nextPageToken := none }
    (by decide) (by decide) (by decide)
  simpa using h

/-- C3: a 401 response makes the loop re-acquire a token and reissue
the identical request — same `pageToken`, untouched accumulator, no
cursor advance (first conjunct); hence a fetch whose responses are a
linked 200 run, then one 401, then the 200 retry of the same request
delivering a final page, yields the concatenated items of all 200
pages, exactly one token refresh, and a request trace whose last two
requests carry the same `pageToken`. -/
theorem c3_401_retry {α : Type} (rs extra : List (PageResponse α))
    (r401 r200 : PageResponse α)
    (hall : ∀ r ∈ rs, r.status = 200 ∧ r.nextPageToken.isSome)
    (h1 : r401.status = 401) (h2 : r200.status = 200)
    (h3 : r200.nextPageToken = none) :
    (∀ (rest : List (PageResponse α)) (acc : List α) (npt : Option String)
       (refr : Nat) (reqs : List (Option String)),
       fetchPages (r401 :: rest) acc npt refr reqs
         = fetchPages rest acc npt (refr + 1) (reqs ++ [npt]))
    ∧ ∃ reqs t, _get_resource_list (rs ++ r401 :: r200 :: extra)
        = some (Except.ok ((rs.map PageResponse.items).flatten ++ r200.items),
                1, reqs ++ [t, t]) := by
  constructor
  · intro rest acc npt refr reqs
    simp [fetchPages, h1]
  · obtain ⟨npt2, reqs2, heq⟩ :=
      fetchPages_run200 rs (r401 :: r200 :: extra) [] none 0 [] hall
    refine ⟨reqs2, npt2, ?_⟩
    rw [_get_resource_list, heq]
    simp [fetchPages, h1, h2, h3]

/-- C3 witness: one 200 page, a 401, then the successful retry; the
result keeps the first page's items, adds the retry's items, counts one
refresh, and the trace shows the retried request reused the same
`pageToken`. -/
theorem c3_401_retry_witness :
    ∃ reqs t, _get_resource_list
        [({ status := 200, items := [1], nextPageToken := some "a" } : PageResponse Nat),
         { status := 401, items := [], nextPageToken := none },
         { status := 200, items := [7, 8], nextPageToken := none }]
      = some (Except.ok [1, 7, 8], 1, reqs ++ [t, t]) := by
  have h := (c3_401_retry
    [({ status := 200, items := [1], nextPageToken := some "a" } : PageResponse Nat)] []
    { status := 401, items := [], nextPageToken := none }
    { status := 200, items := [7, 8], nextPageToken := none }
    (by decide) (by decide) (by decide) (by decide)).2
  simpa using h

/-! ## Theorems: 410 fallback (C2, C10) -/

/-- C2: when a `sync_from_time` is supplied, a 410 failure of the
filtered events fetch is transparently retried exactly once without
`updatedMin` (keeping `singleEvents = true`), and the retry's full
result set is returned in place of the 410; a failure with any other
status propagates unchanged, with no retry. -/
theorem c2_410_fallback (f : EventParams → Except Nat (List GEvent))
    (t : Int) (s : Nat) :
    (f { updatedMin := some (isoformatT t ++ "Z"), singleEvents := true }
        = Except.error 410 →
      _get_raw_events f (some t)
        = (f { updatedMin := none, singleEvents := true },
           [{ updatedMin := some (isoformatT t ++ "Z"), singleEvents := true },
            { updatedMin := none, singleEvents := true }]))
    ∧ (f { updatedMin := some (isoformatT t ++ "Z"), singleEvents := true }
          = Except.error s → s ≠ 410 →
        _get_raw_events f (some t)
          = (Except.error s,
             [{ updatedMin := some (isoformatT t ++ "Z"), singleEvents := true }])) := by
  constructor
  · intro h
    simp [_get_raw_events, h]
  · intro h hs
    simp [_get_raw_events, h, hs]

/-- A remote that 410s every filtered fetch and returns the full (here
empty) result set for unfiltered ones. -/
def staleRemote : EventParams → Except Nat (List GEvent) :=
  fun p => if p.updatedMin.isSome then Except.error 410 else Except.ok []

/-- C2 witness: against `staleRemote`, the filtered fetch at time 0
falls back to the unfiltered fetch's result. -/
theorem c2_410_fallback_witness :
    _get_raw_events staleRemote (some 0)
      = (Except.ok [],
         [{ updatedMin := some (isoformatT 0 ++ "Z"), singleEvents := true },
          { updatedMin := none, singleEvents := true }]) := by
  have h := (c2_410_fallback staleRemote 0 0).1 (by rfl)
  exact h

/-- C10: with `sync_from_time` absent the first fetch already carries
no `updatedMin` (a `None` parameter is dropped from the wire), yet a
410 still triggers exactly one transparent retry with the same
unfiltered parameters — and the retry's 410 propagates as an error. -/
theorem c10_410_unfiltered (f : EventParams → Except Nat (List GEvent))
    (h : f { updatedMin := none, singleEvents := true } = Except.error 410) :
    _get_raw_events f none
      = (Except.error 410,
         [{ updatedMin := none, singleEvents := true },
          { updatedMin := none, singleEvents := true }]) := by
  simp [_get_raw_events, h]

/-- C10 witness: a remote that always 410s makes the unfiltered fetch
issue exactly two identical requests and surface the 410. -/
theorem c10_410_unfiltered_witness :
    _get_raw_events (fun _ => Except.error 410) none
      = (Except.error 410,
         [{ updatedMin := none, singleEvents := true },
          { updatedMin := none, singleEvents := true }]) :=
  c10_410_unfiltered (fun _ => Except.error 410) rfl

/-! ## Theorems: mutation error handling (C9) -/

/-- C9 (amended): for every remote mutation, a response whose status is
in the 4xx/5xx range — including 401 — raises immediately: exactly one
request is issued and one token acquired, with no 401 retry and no
re-auth, unlike the fetch path.  (Statuses outside 400–599 do not
raise: see the counterexample for the claim's broader "any non-2xx"
wording.) -/
theorem c9_mutation_4xx5xx (r : MResponse) (rest : List MResponse)
    (h4 : 400 ≤ r.status) (h6 : r.status < 600) :
    _make_event_request (r :: rest) = some (Except.error r.status, 1, 1)
    ∧ create_remote_event (r :: rest) = some (Except.error r.status, 1, 1)
    ∧ update_remote_event (r :: rest) = some (Except.error r.status, 1, 1)
    ∧ delete_remote_event (r :: rest) = some (Except.error r.status, 1, 1) := by
  have herr : is_http_error r.status = true := by
    simp [is_http_error, h4, h6]
  simp [_make_event_request, raise_for_status, herr,
        create_remote_event, update_remote_event, delete_remote_event,
        Except.map]

/-- C9 counterexample: a non-2xx response outside the 4xx/5xx range
(here 304) is returned without raising — `raise_for_status` only
raises for 4xx/5xx — so "any non-2xx response raises" fails as
stated. -/
theorem c9_counterexample :
    _make_event_request [{ status := 304, body := "b" }]
      = some (Except.ok { status := 304, body := "b" }, 1, 1)
    ∧ create_remote_event [{ status := 304, body := "b" }]
      = some (Except.ok "b", 1, 1) := by
  constructor <;> rfl

/-- C9 witness: a 401 on a create raises immediately; the following
200 response is never requested (one request, one token). -/
theorem c9_mutation_4xx5xx_witness :
    _make_event_request
        [{ status := 401, body := "unauthorized" }, { status := 200, body := "ok" }]
      = some (Except.error 401, 1, 1)
    ∧ create_remote_event
        [{ status := 401, body := "unauthorized" }, { status := 200, body := "ok" }]
      = some (Except.error 401, 1, 1)
    ∧ update_remote_event
        [{ status := 401, body := "unauthorized" }, { status := 200, body := "ok" }]
      = some (Except.error 401, 1, 1)
    ∧ delete_remote_event
        [{ status := 401, body := "unauthorized" }, { status := 200, body := "ok" }]
      = some (Except.error 401, 1, 1) :=
  c9_mutation_4xx5xx { status := 401, body := "unauthorized" }
    [{ status := 200, body := "ok" }] (by decide) (by decide)

/-! ## Theorems: delete/upsert classification (C7) -/

/-- The calendar classification loop partitions the items: ids of the
`deleted`-flagged ones, translations of all the others. -/
theorem get_calendars_spec (cs : List GCalendar) :
    (get_calendars cs).1 = (cs.filter fun c => c.deleted).map GCalendar.id
    ∧ (get_calendars cs).2
        = (cs.filter fun c => !c.deleted).map parse_calendar_response := by
  induction cs with
  | nil => simp [get_calendars]
  | cons c rest ih =>
    cases hd : c.deleted <;>
      simp [get_calendars, hd, ih.1, ih.2]

/-- The event classification loop partitions the items: ids of the
`cancelled` ones, translations of all the others. -/
theorem get_events_spec (es : List GEvent) :
    ∀ (d : List String) (u : List Event),
    get_events es = some (d, u) →
    d = (es.filter fun e => e.status = some "cancelled").map GEvent.id
    ∧ translate_events (es.filter fun e => !(decide (e.status = some "cancelled")))
        = some u := by
  induction es with
  | nil =>
    intro d u h
    simp [get_events] at h
    obtain ⟨h1, h2⟩ := h
    subst h1
    subst h2
    simp [translate_events]
  | cons e rest ih =>
    intro d u h
    by_cases hc : e.status = some "cancelled"
    · simp only [get_events, if_pos hc, Option.map_eq_some'] at h
      obtain ⟨⟨d2, u2⟩, hrest, hpair⟩ := h
      obtain ⟨hd, hu⟩ := Prod.mk.injEq .. ▸ hpair
      obtain ⟨ihd, ihu⟩ := ih d2 u2 hrest
      subst hd
      subst hu
      simp [hc, ihd, ihu]
    · simp only [get_events, if_neg hc] at h
      cases hp : parse_event_response e with
      | none => rw [hp] at h; cases hr : get_events rest <;> simp [hr] at h
      | some ev =>
        rw [hp] at h
        cases hr : get_events rest with
        | none => simp [hr] at h
        | some du =>
          rw [hr] at h
          obtain ⟨d2, u2⟩ := du
          simp only [Option.some.injEq, Prod.mk.injEq] at h
          obtain ⟨hd, hu⟩ := h
          obtain ⟨ihd, ihu⟩ := ih d2 u2 hr
          subst hd
          subst hu
          simp [hc, translate_events, hp, ihd, ihu]

/-- C7: `get_calendars` sends the id of every `deleted`-flagged item to
the deletes and the translation of every other item to the upserts;
`get_events` does the same with `status = cancelled` items — each item
lands in exactly one of the two lists, and no cancelled/deleted item is
ever translated into an upsert. -/
theorem c7_classification :
    (∀ (cs : List GCalendar),
       (get_calendars cs).1 = (cs.filter fun c => c.deleted).map GCalendar.id
       ∧ (get_calendars cs).2
           = (cs.filter fun c => !c.deleted).map parse_calendar_response)
    ∧ (∀ (es : List GEvent) (d : List String) (u : List Event),
       get_events es = some (d, u) →
       d = (es.filter fun e => e.status = some "cancelled").map GEvent.id
       ∧ translate_events (es.filter fun e => !(decide (e.status = some "cancelled")))
           = some u) :=
  ⟨get_calendars_spec, get_events_spec⟩

/-- A cancelled raw event item. -/
def eCancelled : GEvent :=
  { id := "ev-gone", status := some "cancelled", summary := none,
    start := { date := none, dateTime := none },
    «end» := { date := none, dateTime := none },
    description := none, location := none, transparency := none,
    creator := none, guestsCanModify := false, attendees := [] }

/-- A live all-day raw event item. -/
def eLive : GEvent :=
  { id := "ev-live", status := some "confirmed", summary := some "Standup",
    start := { date := some "2024-03-01", dateTime := none },
    «end» := { date := some "2024-03-03", dateTime := none },
    description := none, location := none, transparency := none,
    creator := none, guestsCanModify := false, attendees := [] }

/-- The translation of `eLive` (2024-03-01 and 2024-03-02 as seconds
on the modelled time line). -/
def evLive : Event :=
  { uid := "ev-live", raw_data := eLive, title := "Standup",
    description := none, location := none, busy := true,
    start := 63871286400, «end» := 63871372800, all_day := true,
    owner := "", read_only := true, participants := [], source := "local" }

/-- C7 witness: one deleted and one live calendar, one cancelled and
one live event, each classified into exactly one of the two lists. -/
theorem c7_classification_witness :
    ((get_calendars
        [{ id := "c1", summary := "A", accessRole := "reader",
           description := none, deleted := true },
         { id := "c2", summary := "B", accessRole := "owner",
           description := some "x", deleted := false }]).1
      = ([{ id := "c1", summary := "A", accessRole := "reader",
            description := none, deleted := true },
          { id := "c2", summary := "B", accessRole := "owner",
            description := some "x", deleted := false }].filter
           fun c => c.deleted).map GCalendar.id)
    ∧ (["ev-gone"]
        = ([eCancelled, eLive].filter
            fun e => e.status = some "cancelled").map GEvent.id
       ∧ translate_events
           ([eCancelled, eLive].filter
             fun e => !(decide (e.status = some "cancelled")))
         = some [evLive]) :=
  ⟨(c7_classification.1 _).1,
   c7_classification.2 [eCancelled, eLive] ["ev-gone"] [evLive] (by decide)⟩

/-! ## Theorems: all-day timing (C4) -/

/-- In the all-day case the timing block parses both dates and pulls
the end back one day. -/
theorem event_times_all_day (e : GEvent) (sd ed : String)
    (hsd : e.start.date = some sd) (hed : e.«end».date = some ed) :
    event_times e
      = (parse_datetime sd).bind fun s =>
          (parse_datetime ed).map fun en => (s, en - oneDay) := by
  unfold event_times
  rw [hsd, hed]
  simp only [Option.isSome_some, Bool.and_self, if_true]
  cases parse_datetime sd <;> cases parse_datetime ed <;> simp

/-- In the timed case the timing block requires and parses both
`dateTime` values. -/
theorem event_times_timed (e : GEvent)
    (hnot : (e.start.date.isSome && e.«end».date.isSome) = false)
    (sd ed : String)
    (hsd : e.start.dateTime = some sd) (hed : e.«end».dateTime = some ed) :
    event_times e
      = (parse_datetime sd).bind fun s =>
          (parse_datetime ed).map fun en => (s, en) := by
  unfold event_times
  rw [hnot, hsd, hed]
  simp only [Bool.false_eq_true, if_false]
  cases parse_datetime sd <;> cases parse_datetime ed <;> simp

/-- C4: a parsed event is all-day exactly when both the `start` and
`end` sub-objects carry a `date` key; in that case its start is the
parsed start date and its end the parsed end date minus one day
(exclusive→inclusive boundary), and otherwise start and end are the
parsed `dateTime` instants. -/
theorem c4_all_day (e : GEvent) (ev : Event)
    (h : parse_event_response e = some ev) :
    ev.all_day = (e.start.date.isSome && e.«end».date.isSome)
    ∧ ((e.start.date.isSome && e.«end».date.isSome) = true →
        ∃ sd ed s en, e.start.date = some sd ∧ e.«end».date = some ed
          ∧ parse_datetime sd = some s ∧ parse_datetime ed = some en
          ∧ ev.start = s ∧ ev.«end» = en - oneDay)
    ∧ ((e.start.date.isSome && e.«end».date.isSome) = false →
        ∃ sd ed s en, e.start.dateTime = some sd ∧ e.«end».dateTime = some ed
          ∧ parse_datetime sd = some s ∧ parse_datetime ed = some en
          ∧ ev.start = s ∧ ev.«end» = en) := by
  unfold parse_event_response at h
  cases ht : event_times e with
  | none => rw [ht] at h; cases h
  | some se =>
    rw [ht] at h
    cases hp : translate_attendees e.attendees with
    | none => rw [hp] at h; cases h
    | some ps =>
      rw [hp] at h
      obtain rfl := (Option.some.injEq ..).mp h
      refine ⟨rfl, ?_, ?_⟩
      · intro hall
        obtain ⟨sd, hsd⟩ := Option.isSome_iff_exists.mp
          (Bool.and_eq_true_iff.mp hall).1
        obtain ⟨ed, hed⟩ := Option.isSome_iff_exists.mp
          (Bool.and_eq_true_iff.mp hall).2
        rw [event_times_all_day e sd ed hsd hed, Option.bind_eq_some] at ht
        obtain ⟨s, hps, ht⟩ := ht
        rw [Option.map_eq_some'] at ht
        obtain ⟨en, hpe, hte⟩ := ht
        subst hte
        exact ⟨sd, ed, s, en, hsd, hed, hps, hpe, rfl, rfl⟩
      · intro hnot
        cases hsd : e.start.dateTime with
        | none =>
          rw [event_times] at ht
          rw [hnot, hsd] at ht
          simp only [Bool.false_eq_true, if_false] at ht
          cases e.«end».dateTime <;> cases ht
        | some sd =>
          cases hed : e.«end».dateTime with
          | none =>
            rw [event_times] at ht
            rw [hnot, hsd, hed] at ht
            simp only [Bool.false_eq_true, if_false] at ht
            cases ht
          | some ed =>
            rw [event_times_timed e hnot sd ed hsd hed,
                Option.bind_eq_some] at ht
            obtain ⟨s, hps, ht⟩ := ht
            rw [Option.map_eq_some'] at ht
            obtain ⟨en, hpe, hte⟩ := ht
            subst hte
            exact ⟨sd, ed, s, en, rfl, rfl, hps, hpe, rfl, rfl⟩

/-- C4 witness: the spec's example — `start.date = 2024-03-01`,
`end.date = 2024-03-03` — parses all-day with the end pulled back one
day (to the instant of 2024-03-02). -/
theorem c4_all_day_witness :
    parse_event_response eLive = some evLive
    ∧ (evLive.all_day = (eLive.start.date.isSome && eLive.«end».date.isSome)
       ∧ ((eLive.start.date.isSome && eLive.«end».date.isSome) = true →
           ∃ sd ed s en, eLive.start.date = some sd ∧ eLive.«end».date = some ed
             ∧ parse_datetime sd = some s ∧ parse_datetime ed = some en
             ∧ evLive.start = s ∧ evLive.«end» = en - oneDay)
       ∧ ((eLive.start.date.isSome && eLive.«end».date.isSome) = false →
           ∃ sd ed s en, eLive.start.dateTime = some sd
             ∧ eLive.«end».dateTime = some ed
             ∧ parse_datetime sd = some s ∧ parse_datetime ed = some en
             ∧ evLive.start = s ∧ evLive.«end» = en))
    ∧ parse_datetime "2024-03-02" = some evLive.«end» :=
  ⟨by decide, c4_all_day eLive evLive (by decide), by decide⟩

/-! ## Theorems: status mapping round trip (C5) -/

/-- Remote→domain→remote composition: map a remote status through
`STATUS_MAP`, put the result on a participant, and read the
`responseStatus` that `_create_attendee` emits for it. -/
def remote_status_roundtrip (r : String) : Option (Option String) :=
  (statusFromRemote r).bind fun d =>
    (_create_attendee { email := none, name := none, status := some d,
                        notes := none, guests := none }).map
      GAttendee.responseStatus

/-- Domain→remote→domain composition: emit an attendee for a domain
status via `_create_attendee`, then translate it back as
`parse_event_response` would and read the participant's status. -/
def domain_status_roundtrip (d : String) : Option (Option String) :=
  (_create_attendee { email := none, name := none, status := some d,
                      notes := none, guests := none }).bind fun a =>
    (translate_attendee a).map Participant.status

/-- C5: the four-entry attendee status table round-trips exactly in
both directions, through `_create_attendee` and the parse-side
translation. -/
theorem c5_status_roundtrip :
    remote_status_roundtrip "accepted" = some (some "accepted")
    ∧ remote_status_roundtrip "needsAction" = some (some "needsAction")
    ∧ remote_status_roundtrip "declined" = some (some "declined")
    ∧ remote_status_roundtrip "tentative" = some (some "tentative")
    ∧ domain_status_roundtrip "yes" = some (some "yes")
    ∧ domain_status_roundtrip "noreply" = some (some "noreply")
    ∧ domain_status_roundtrip "no" = some (some "no")
    ∧ domain_status_roundtrip "maybe" = some (some "maybe") := by
  decide

/-! ## Theorems: unknown attendee status (C6) -/

/-- An attendee whose status cannot be translated poisons the whole
attendees loop. -/
theorem translate_attendees_none (l : List GAttendee) (a : GAttendee)
    (ha : a ∈ l) (hbad : translate_attendee a = none) :
    translate_attendees l = none := by
  induction l with
  | nil => cases ha
  | cons b rest ih =>
    rcases List.mem_cons.mp ha with rfl | hmem
    · simp [translate_attendees, hbad]
    · cases hb : translate_attendee b <;>
        simp [translate_attendees, hb, ih hmem]

/-- C6: an event carrying any attendee whose `responseStatus` is
absent or not in the fixed four-entry table fails to translate — the
whole item's translation aborts with a parse error instead of
producing an `Event` with a defaulted status. -/
theorem c6_unknown_status (e : GEvent) (a : GAttendee)
    (ha : a ∈ e.attendees)
    (hbad : a.responseStatus.bind statusFromRemote = none) :
    parse_event_response e = none := by
  have hta : translate_attendee a = none := by
    unfold translate_attendee
    rw [hbad]
  have hl := translate_attendees_none e.attendees a ha hta
  unfold parse_event_response
  cases ht : event_times e with
  | none => rfl
  | some se => rw [hl]

/-- An otherwise well-formed event with one attendee whose status is
not in the table. -/
def eBadStatus : GEvent :=
  { id := "ev-bad", status := none, summary := some "Later",
    start := { date := some "2024-03-01", dateTime := none },
    «end» := { date := some "2024-03-02", dateTime := none },
    description := none, location := none, transparency := none,
    creator := none, guestsCanModify := false,
    attendees := [{ email := some "a@b.c", displayName := some "A",
                    responseStatus := some "maybe-later", comment := none,
                    additionalGuests := none }] }

/-- C6 witness: `responseStatus = "maybe-later"` makes the whole
translation fail. -/
theorem c6_unknown_status_witness : parse_event_response eBadStatus = none :=
  c6_unknown_status eBadStatus
    { email := some "a@b.c", displayName := some "A",
      responseStatus := some "maybe-later", comment := none,
      additionalGuests := none }
    (by decide) (by decide)

/-! ## Theorems: event dump shape (C8) -/

/-- C8: `_dump_event` always carries the event's summary, description,
location and busy-derived transparency; an all-day event dumps only a
start `date` and no `end` key, a timed event dumps both start and end
as `dateTime` with an explicit UTC label. -/
theorem c8_dump_event (ev : Event) (d : EventDump)
    (h : _dump_event ev = some d) :
    d.summary = ev.title
    ∧ d.description = ev.description
    ∧ d.location = ev.location
    ∧ d.transparency = (if ev.busy then "opaque" else "transparent")
    ∧ (ev.all_day = true →
        d.start = TimeDump.date (strftimeYMD ev.start) ∧ d.«end» = none)
    ∧ (ev.all_day = false →
        d.start = TimeDump.dateTime (isoformatT ev.start) "UTC"
        ∧ d.«end» = some (TimeDump.dateTime (isoformatT ev.«end») "UTC")) := by
  unfold _dump_event at h
  cases hf : dump_attendees_field ev.participants with
  | none => rw [hf] at h; cases h
  | some atts =>
    rw [hf] at h
    obtain rfl := (Option.some.injEq ..).mp h
    refine ⟨rfl, rfl, rfl, rfl, ?_, ?_⟩
    · intro hall
      exact ⟨by simp [hall], by simp [hall]⟩
    · intro hnot
      exact ⟨by simp [hnot], by simp [hnot]⟩

/-- A busy all-day event with no participants. -/
def evAllDayBusy : Event :=
  { uid := "w1", raw_data := eLive, title := "T", description := some "D",
    location := none, busy := true, start := 63871286400,
    «end» := 63871372800, all_day := true, owner := "", read_only := false,
    participants := [], source := "local" }

/-- A free timed event with no participants. -/
def evTimedFree : Event :=
  { uid := "w2", raw_data := eLive, title := "U", description := none,
    location := some "L", busy := false, start := 63871286400,
    «end» := 63871290000, all_day := false, owner := "", read_only := false,
    participants := [], source := "local" }

/-- C8 witness: the dump of a busy all-day event and of a free timed
event each satisfy the key/shape properties. -/
theorem c8_dump_event_witness :
    (evAllDayBusy.all_day = true →
      ({ summary := "T", description := some "D", location := none,
         transparency := "opaque",
         start := TimeDump.date (strftimeYMD evAllDayBusy.start),
         «end» := none, attendees := none } : EventDump).start
          = TimeDump.date (strftimeYMD evAllDayBusy.start)
      ∧ ({ summary := "T", description := some "D", location := none,
           transparency := "opaque",
           start := TimeDump.date (strftimeYMD evAllDayBusy.start),
           «end» := none, attendees := none } : EventDump).«end» = none)
    ∧ (evTimedFree.all_day = false →
      ({ summary := "U", description := none, location := some "L",
         transparency := "transparent",
         start := TimeDump.dateTime (isoformatT evTimedFree.start) "UTC",
         «end» := some (TimeDump.dateTime (isoformatT evTimedFree.«end») "UTC"),
         attendees := none } : EventDump).start
          = TimeDump.dateTime (isoformatT evTimedFree.start) "UTC"
      ∧ ({ summary := "U", description := none, location := some "L",
           transparency := "transparent",
           start := TimeDump.dateTime (isoformatT evTimedFree.start) "UTC",
           «end» := some (TimeDump.dateTime (isoformatT evTimedFree.«end») "UTC"),
           attendees := none } : EventDump).«end»
          = some (TimeDump.dateTime (isoformatT evTimedFree.«end») "UTC")) :=
  ⟨(c8_dump_event evAllDayBusy _ (by decide)).2.2.2.2.1,
   (c8_dump_event evTimedFree _ (by decide)).2.2.2.2.2⟩

end InboxGoogle
